import Mathlib

/-!
Formal model of the pbcr container runtime (a rootless OCI runtime with a
userspace TCP proxy), shallowly embedded from its Python sources:

* pbcr/networking/utils.py : the Internet checksum
* pbcr/networking/ip.py    : IPv4 header building
* pbcr/networking/tcp.py   : TCP header building and the TCP control-block
  state machine driven by incoming segments
* pbcr/run.py              : uid/gid map formatting, overlay lowerdir
  assembly, and the control flow of the run command
* pbcr/storage.py          : the JSON-file-backed container store
* pbcr/types.py            : pull-token expiry

Machine integers are modelled as Nat with explicit bounds where the Python
code would overflow (int.to_bytes raises OverflowError for out-of-range
values, bytearray construction raises ValueError for non-byte elements);
fallible operations return Option or Except.  Side effects (packets written
to the TUN device, host connections opened, data forwarded to the proxied
stream) are collected as explicit effect lists.
-/

/-! ## Internet checksum (pbcr/networking/utils.py, function checksum)

The Python function pads odd-length data with a zero byte, sums 16-bit
big-endian words, folds the carries twice and returns the bitwise
complement masked to 16 bits.  wordSum is the padded word sum, foldTwice the
two carry folds; for a nonnegative accumulator s the Python expression
  (~ s) & 0xffff
equals 65535 - (s &&& 65535), which is how checksum is written here. -/

def wordSum : List Nat → Nat
  | [] => 0
  | [b] => b <<< 8
  | b0 :: b1 :: rest => ((b0 <<< 8) + b1) + wordSum rest

def foldTwice (s : Nat) : Nat :=
  let s1 := s >>> 16 + (s &&& 65535)
  s1 + s1 >>> 16

def checksum (data : List Nat) : Nat :=
  65535 - (foldTwice (wordSum data) &&& 65535)

/-! ## IPv4 header building (pbcr/networking/ip.py, IPInfo.build)

toBytes2 and toBytes4 model int.to_bytes(v, 2, big) and
int.to_bytes(v, 4, big) for an in-range v; the callers below guard the
ranges, returning none where Python would raise.  IPInfo.build produces the
20-byte header with the checksum of the zero-checksum header placed
big-endian at offset 10. -/

def toBytes2 (v : Nat) : List Nat := [v >>> 8, v &&& 255]

def toBytes4 (v : Nat) : List Nat :=
  [v >>> 24, (v >>> 16) &&& 255, (v >>> 8) &&& 255, v &&& 255]

def byteListOk (l : List Nat) : Bool := l.all (fun b => b < 256)

structure IPInfo where
  src : List Nat
  dst : List Nat
  proto : Nat
  ipver : Nat := 4
deriving DecidableEq

def IPInfo.build (info : IPInfo) (datalen : Nat) : Option (List Nat) :=
  let totalLen := 20 + datalen
  if totalLen < 65536 ∧ info.proto < 256 ∧ (info.ipver <<< 4 ||| 5) < 256 ∧
      byteListOk info.src = true ∧ byteListOk info.dst = true then
    let zeroed := (info.ipver <<< 4 ||| 5) :: 0 :: toBytes2 totalLen ++
      [0, 1, 0, 0, 255, info.proto] ++ 0 :: 0 :: (info.src ++ info.dst)
    let chck := checksum zeroed
    some ((info.ipver <<< 4 ||| 5) :: 0 :: toBytes2 totalLen ++
      [0, 1, 0, 0, 255, info.proto] ++
      (chck >>> 8) :: (chck &&& 255) :: (info.src ++ info.dst))
  else none

/-! ## TCP header building (pbcr/networking/tcp.py, TCPFlags and TCPInfo)

TCPInfo.build emits the 20-byte option-less TCP header followed by the
payload; the checksum over the pseudo-header and the segment is placed
big-endian at offset 16.  The guards model the OverflowError of
int.to_bytes (ports 16-bit, seq and ack 32-bit) and the ValueError of
bytearray for a flags value above 255 or non-byte address elements. -/

def TCPFlags.FIN : Nat := 1
def TCPFlags.SYN : Nat := 2
def TCPFlags.RST : Nat := 4
def TCPFlags.PSH : Nat := 8
def TCPFlags.ACK : Nat := 16
def TCPFlags.URG : Nat := 32

structure TCPInfo where
  sport : Nat
  dport : Nat
  seq : Nat
  ack : Nat
  flags : Nat
deriving DecidableEq

def TCPInfo.build (info : TCPInfo) (srcIp dstIp : List Nat) (data : List Nat) :
    Option (List Nat) :=
  if info.sport < 65536 ∧ info.dport < 65536 ∧
      info.seq < 4294967296 ∧ info.ack < 4294967296 ∧ info.flags < 256 ∧
      20 + data.length < 65536 ∧
      byteListOk srcIp = true ∧ byteListOk dstIp = true then
    let zeroed := toBytes2 info.sport ++ toBytes2 info.dport ++
      toBytes4 info.seq ++ toBytes4 info.ack ++ [80, info.flags] ++
      toBytes2 8192 ++ [0, 0] ++ [0, 0] ++ data
    let pseudo := srcIp ++ dstIp ++ [0, 6] ++ toBytes2 (20 + data.length)
    let chck := checksum (pseudo ++ zeroed)
    some (toBytes2 info.sport ++ toBytes2 info.dport ++
      toBytes4 info.seq ++ toBytes4 info.ack ++ [80, info.flags] ++
      toBytes2 8192 ++ toBytes2 chck ++ [0, 0] ++ data)
  else none

/-! ## TCP control blocks and the stack state machine
(pbcr/networking/tcp.py, TCPState, the TCB dataclass and TCPStack)

A TCB is keyed by the four-tuple as seen from the container with source
and destination ports swapped.  The TCB map (a Python dict) is modelled as
an association list with insert-or-replace preserving position, because
the dict mutates entries in place.  The asyncio StreamReader and
StreamWriter of the proxied host connection are modelled by the flag
proxyConnected; opening the connection, writing to it and spawning the
background reader task appear as effects. -/

inductive TCPState where
  | LISTEN | SYN_SENT | SYN_RECEIVED | ESTABLISHED
  | FIN_WAIT_1 | FIN_WAIT_2 | CLOSE_WAIT | CLOSING
  | LAST_ACK | TIME_WAIT | CLOSED
deriving DecidableEq

structure TCB where
  src_ip : List Nat
  dst_ip : List Nat
  src_port : Nat
  dst_port : Nat
  snd_una : Nat
  snd_nxt : Nat
  snd_wnd : Nat
  snd_up : Nat
  snd_wl1 : Nat
  snd_wl2 : Nat
  iss : Nat
  rcv_nxt : Nat
  rcv_wnd : Nat
  rcv_up : Nat
  irs : Nat
  state : TCPState
  proxyConnected : Bool
deriving DecidableEq

def TCB.key (tcb : TCB) : List Nat × Nat × List Nat × Nat :=
  (tcb.src_ip, tcb.src_port, tcb.dst_ip, tcb.dst_port)

def TcbMap : Type := List ((List Nat × Nat × List Nat × Nat) × TCB)

inductive Effect where
  | emit (pkt : List Nat)
  | hostConnect (host : String) (port : Nat)
  | spawnReader
  | hostWrite (data : List Nat)
deriving DecidableEq

/-- Key of an incoming segment, from TCPStack._get_tcb: source address with
the destination port, destination address with the source port. -/
def tcbKeyOf (iph : IPInfo) (tcph : TCPInfo) : List Nat × Nat × List Nat × Nat :=
  (iph.src, tcph.dport, iph.dst, tcph.sport)

def findTcb (m : TcbMap) (k : List Nat × Nat × List Nat × Nat) : Option TCB :=
  match m with
  | [] => none
  | (k2, v) :: rest => if k2 = k then some v else findTcb rest k

def upsertTcb (m : TcbMap) (k : List Nat × Nat × List Nat × Nat) (v : TCB) : TcbMap :=
  match m with
  | [] => [(k, v)]
  | (k2, v2) :: rest =>
    if k2 = k then (k2, v) :: rest else (k2, v2) :: upsertTcb rest k v

def removeTcb (m : TcbMap) (k : List Nat × Nat × List Nat × Nat) : TcbMap :=
  match m with
  | [] => []
  | (k2, v2) :: rest =>
    if k2 = k then removeTcb rest k else (k2, v2) :: removeTcb rest k

/-- TCPStack._get_tcb: look the key up; when absent, return none unless SYN
is set, in which case a fresh TCB is allocated in state LISTEN with
irs = seq, rcv_nxt = seq + 1, iss = 1, snd_nxt = 1, snd_una = 0 and both
windows 8192, and stored in the map. -/
def getTcb (m : TcbMap) (iph : IPInfo) (tcph : TCPInfo) : Option (TcbMap × TCB) :=
  let k := tcbKeyOf iph tcph
  match findTcb m k with
  | some tcb => some (m, tcb)
  | none =>
    if tcph.flags &&& TCPFlags.SYN = 0 then none
    else
      let tcb : TCB := {
        src_ip := iph.src, dst_ip := iph.dst,
        src_port := tcph.dport, dst_port := tcph.sport,
        snd_una := 0, snd_nxt := 1, snd_wnd := 8192, snd_up := 0,
        snd_wl1 := 0, snd_wl2 := 0, iss := 1,
        rcv_nxt := tcph.seq + 1, rcv_wnd := 8192, rcv_up := 0,
        irs := tcph.seq,
        state := TCPState.LISTEN, proxyConnected := false }
      some (upsertTcb m k tcb, tcb)

/-- TCPStack._build_response: IP header (source and destination swapped back
toward the container) followed by the TCP segment carrying the current
snd_nxt and rcv_nxt of the TCB. -/
def buildResponse (tcb : TCB) (flags : Nat) (data : List Nat) : Option (List Nat) :=
  match IPInfo.build { src := tcb.dst_ip, dst := tcb.src_ip, proto := 6 } (20 + data.length) with
  | none => none
  | some ih =>
    match TCPInfo.build
        { sport := tcb.src_port, dport := tcb.dst_port,
          seq := tcb.snd_nxt, ack := tcb.rcv_nxt, flags := flags }
        tcb.dst_ip tcb.src_ip data with
    | none => none
    | some th => some (ih ++ th)

/-- TCPStack._send_response: write the packet, then increment snd_nxt by one
when byte 33 of the emitted buffer (the TCP flags byte behind the 20-byte IP
header) has SYN or FIN set. -/
def sendResponse (resp : List Nat) (tcb : TCB) : TCB × List Effect :=
  let fl := resp.getD 33 0
  (if fl &&& TCPFlags.SYN ≠ 0 ∨ fl &&& TCPFlags.FIN ≠ 0 then
      { tcb with snd_nxt := tcb.snd_nxt + 1 }
    else tcb,
   [Effect.emit resp])

/-- TCPStack._handle_listen_state: on SYN, move to SYN_RECEIVED, open the
host-side connection to 127.0.0.1 at the port stored as src_port of the TCB
(the destination port the container dialed), then send SYN+ACK. -/
def handleListenState (tcph : TCPInfo) (tcb : TCB) : Option (TCB × List Effect) :=
  if tcph.flags &&& TCPFlags.SYN ≠ 0 then
    let tcb1 := { tcb with state := TCPState.SYN_RECEIVED, proxyConnected := true }
    match buildResponse tcb1 (TCPFlags.ACK ||| TCPFlags.SYN) [] with
    | none => none
    | some resp =>
      let st := sendResponse resp tcb1
      some (st.1, Effect.hostConnect "127.0.0.1" tcb.src_port :: st.2)
  else some (tcb, [])

/-- TCPStack._handle_syn_received_state: on ACK, become ESTABLISHED and
spawn the background proxy-reader task. -/
def handleSynReceivedState (tcph : TCPInfo) (tcb : TCB) : Option (TCB × List Effect) :=
  if tcph.flags &&& TCPFlags.ACK ≠ 0 then
    some ({ tcb with state := TCPState.ESTABLISHED }, [Effect.spawnReader])
  else some (tcb, [])

/-- TCPStack._handle_established_state: FIN moves to CLOSE_WAIT and ACKs;
otherwise ACK advances rcv_nxt to seq plus the payload length, sends a bare
ACK, and forwards a non-empty payload to the proxy writer when present. -/
def handleEstablishedState (tcph : TCPInfo) (tcb : TCB) (data : List Nat) :
    Option (TCB × List Effect) :=
  if tcph.flags &&& TCPFlags.FIN ≠ 0 then
    let tcb1 := { tcb with state := TCPState.CLOSE_WAIT }
    match buildResponse tcb1 TCPFlags.ACK [] with
    | none => none
    | some resp =>
      let st := sendResponse resp tcb1
      some (st.1, st.2)
  else if tcph.flags &&& TCPFlags.ACK ≠ 0 then
    let tcb1 := { tcb with rcv_nxt := tcph.seq + data.length }
    match buildResponse tcb1 TCPFlags.ACK [] with
    | none => none
    | some resp =>
      let st := sendResponse resp tcb1
      some (st.1, st.2 ++
        (if data ≠ [] ∧ st.1.proxyConnected = true then [Effect.hostWrite data] else []))
  else some (tcb, [])

/-- TCPStack._handle_close_wait_state: unconditionally send FIN+ACK and move
to LAST_ACK. -/
def handleCloseWaitState (tcb : TCB) : Option (TCB × List Effect) :=
  let tcb1 := { tcb with state := TCPState.LAST_ACK }
  match buildResponse tcb1 (TCPFlags.FIN ||| TCPFlags.ACK) [] with
  | none => none
  | some resp =>
    let st := sendResponse resp tcb1
    some (st.1, st.2)

/-- TCPStack._do_handle: fetch or create the TCB (returning with no effect
when _get_tcb yields none); run the ESTABLISHED handler when in that state;
then dispatch on the possibly-updated state exactly as the Python handler
dictionary lookup does (so a FIN handled in ESTABLISHED falls through to
the CLOSE_WAIT handler within the same call).  The LAST_ACK handler deletes
the TCB from the map on ACK.  A none result models an uncaught exception in
the handler task. -/
def doHandle (m : TcbMap) (iph : IPInfo) (tcph : TCPInfo) (data : List Nat) :
    Option (TcbMap × List Effect) :=
  match getTcb m iph tcph with
  | none => some (m, [])
  | some (m1, tcb) =>
    let k := tcbKeyOf iph tcph
    match (if tcb.state = TCPState.ESTABLISHED then
        handleEstablishedState tcph tcb data
      else some (tcb, [])) with
    | none => none
    | some (tcb1, effs1) =>
      match tcb1.state with
      | TCPState.LISTEN =>
        match handleListenState tcph tcb1 with
        | none => none
        | some (tcb2, effs2) => some (upsertTcb m1 k tcb2, effs1 ++ effs2)
      | TCPState.SYN_RECEIVED =>
        match handleSynReceivedState tcph tcb1 with
        | none => none
        | some (tcb2, effs2) => some (upsertTcb m1 k tcb2, effs1 ++ effs2)
      | TCPState.CLOSE_WAIT =>
        match handleCloseWaitState tcb1 with
        | none => none
        | some (tcb2, effs2) => some (upsertTcb m1 k tcb2, effs1 ++ effs2)
      | TCPState.LAST_ACK =>
        if tcph.flags &&& TCPFlags.ACK ≠ 0 then
          some (removeTcb m1 (TCB.key { tcb1 with state := TCPState.CLOSED }), effs1)
        else some (upsertTcb m1 k tcb1, effs1)
      | _ => some (upsertTcb m1 k tcb1, effs1)

/-- Accumulated snd_nxt after the proxy-reader task of TCPStack forwards
each chunk read from the host stream: the Python code performs
snd_nxt += len(data) with plain unbounded integers (no reduction modulo
2 to the 32). -/
def proxyReaderSndNxt (sndNxt : Nat) (reads : List (List Nat)) : Nat :=
  reads.foldl (fun s d => s + d.length) sndNxt

/-! ## UID/GID map formatting (pbcr/run.py, _UIDMapper._format_args)

The Python method receives a set of id strings; sets only affect iteration
order, which min and max ignore, so the model takes a list.  pyInt models
int() on a canonical decimal string (optionally signed), returning none
where Python would raise ValueError. -/

def decDigits (cs : List Char) : Nat :=
  cs.foldl (fun n c => n * 10 + (c.toNat - 48)) 0

def pyInt (s : String) : Option Int :=
  match s.data with
  | [] => none
  | c :: cs =>
    if c = '-' then
      if cs.isEmpty then none
      else if cs.all (fun d => d.isDigit) then some (-(decDigits cs : Int))
      else none
    else
      if (c :: cs).all (fun d => d.isDigit) then some ((decDigits (c :: cs) : Int))
      else none

/-- Parse every id string with pyInt, failing as a whole when any single
parse fails, as the int() calls inside the min()/max() generator
expressions of _format_args would. -/
def mapPyInt : List String → Option (List Int)
  | [] => some []
  | s :: rest =>
    match pyInt s, mapPyInt rest with
    | some i, some is => some (i :: is)
    | _, _ => none

/-- Model of _UIDMapper._format_args: start from [0, root_map, 1]; drop the
id 0; when ids remain, parse them as integers (none models the ValueError
of int()) and append their minimum, the subordinate base, and
max - min + 1. -/
def formatArgs (ids : List String) (start : String) (rootMap : String) :
    Option (List String) :=
  let rest := ids.filter (fun s => s != "0")
  match rest with
  | [] => some ["0", rootMap, "1"]
  | r :: rs =>
    match mapPyInt (r :: rs) with
    | none => none
    | some [] => none
    | some (i :: is) =>
      some (["0", rootMap, "1"] ++
        [toString (is.foldl min i), start,
         toString (is.foldl max i - is.foldl min i + 1)])

/-! ## Overlay lowerdir assembly (pbcr/run.py, _ContainerFS)

The _lowers attribute starts as the image layer paths, bottom layer first.
mount joins the REVERSED list with colons into the lowerdir option.
add_volumes appends the volumes directory to _lowers once per volume entry
(the append sits inside the for loop); the hardlink side effects do not
touch _lowers and are omitted here. -/

def mountLowerdir (lowers : List String) : String :=
  String.intercalate ":" lowers.reverse

def addVolumes (lowers : List String) (volumesDir : String) (volumes : List String) :
    List String :=
  volumes.foldl (fun ls _v => ls ++ [volumesDir]) lowers

/-! ## Control flow of the run command (pbcr/run.py run_command, pbcr/main.py)

run_command is modelled as the ordered list of externally visible actions
of the parent process; the child pid and the child exit status, which the
operating system supplies, are parameters.  The only configuration check in
run_command is the docker.io/ prefix test of _choose_image (a ValueError is
the configError event); there is no validation involving the daemon or
remove flags.  runParserOptionStrings lists the option strings the argparse
run subparser of main.py defines. -/

/-- Model of the str.startswith test of _choose_image, written over the
character list so that it evaluates structurally. -/
def strStartsWith (s pre : String) : Bool :=
  pre.data.isPrefixOf s.data

structure ContainerConfig where
  image_name : String
  entrypoint : String := ""
  command : String := ""
  container_name : Option String := none
  daemon : Bool := false
  volumes : Option (List String) := none
  remove : Bool := false
deriving DecidableEq

inductive RunEvent where
  | configError
  | storeContainerRecord (pid : Option Nat)
  | prepareFS
  | registerVolumes
  | readContainerSpec
  | forkChild (pid : Nat)
  | applyUidMap (pid : Nat)
  | applyGidMap (pid : Nat)
  | startNetStack
  | waitChild
  | removeContainerRecord
  | removeContainerFS
  | exitWith (code : Nat)
deriving DecidableEq

def run_command (cfg : ContainerConfig) (childPid : Nat) (childExit : Nat) :
    List RunEvent :=
  if ¬ strStartsWith cfg.image_name "docker.io/" then [RunEvent.configError]
  else
    [RunEvent.storeContainerRecord none, RunEvent.prepareFS,
     RunEvent.registerVolumes, RunEvent.readContainerSpec,
     RunEvent.forkChild childPid,
     RunEvent.storeContainerRecord (some childPid),
     RunEvent.applyUidMap childPid, RunEvent.applyGidMap childPid,
     RunEvent.startNetStack] ++
    (if cfg.daemon then []
     else [RunEvent.waitChild] ++
       (if cfg.remove then [RunEvent.removeContainerRecord, RunEvent.removeContainerFS]
        else []) ++
       [RunEvent.exitWith childExit])

def runParserOptionStrings : List String :=
  ["-n", "--name", "--entrypoint", "--rm", "-v", "--volume"]

/-- The configuration the spec declares invalid: daemon and remove both
set (image reference valid). -/
def daemonRmConfig : ContainerConfig :=
  { image_name := "docker.io/library/alpine", daemon := true, remove := true }

/-! ## Container store (pbcr/storage.py, FileContainerStorage)

The containers.json file is modelled in three states: absent, blank (the
file exists but holds no valid JSON object, as right after touch() on a new
file), and stored with a JSON object mapping container_id to Container.
store_container touches the file and then, inside a try block, loads it,
assigns the entry and rewrites; a load failure (ValueError on a blank file)
is swallowed by the except clause, which leaves the file unwritten.
get_container opens the file (raising when absent, the error case), treats
unparseable content as an empty map, and looks the id up. -/

structure Container where
  container_id : String
  pid : Option Nat
  image_registry : String
  image_name : String
deriving DecidableEq

def lookupContainer (m : List (String × Container)) (k : String) : Option Container :=
  match m with
  | [] => none
  | (k2, v) :: rest => if k2 = k then some v else lookupContainer rest k

def upsertContainer (m : List (String × Container)) (k : String) (c : Container) :
    List (String × Container) :=
  match m with
  | [] => [(k, c)]
  | (k2, v2) :: rest =>
    if k2 = k then (k2, c) :: rest else (k2, v2) :: upsertContainer rest k c

inductive ContainersFile where
  | absent
  | blank
  | stored (m : List (String × Container))
deriving DecidableEq

def store_container (f : ContainersFile) (c : Container) : ContainersFile :=
  match f with
  | ContainersFile.absent => ContainersFile.blank
  | ContainersFile.blank => ContainersFile.blank
  | ContainersFile.stored m =>
    ContainersFile.stored (upsertContainer m c.container_id c)

def get_container (f : ContainersFile) (k : String) : Except Unit (Option Container) :=
  match f with
  | ContainersFile.absent => Except.error ()
  | ContainersFile.blank => Except.ok none
  | ContainersFile.stored m => Except.ok (lookupContainer m k)

/-! ## Pull-token expiry (pbcr/types.py, PullToken)

datetime instants are modelled as microseconds since the epoch (UTC), the
resolution of the Python datetime type; expires_in is in seconds.
expires_at subtracts the 60-second early-expiry margin; is_expired compares
with a strict greater-than, exactly as datetime.now() > self.expires_at. -/

structure PullToken where
  token : String
  expires_in : Int
  issued_at : Int
deriving DecidableEq

def PullToken.expires_at (t : PullToken) : Int :=
  t.issued_at + (t.expires_in - 60) * 1000000

def PullToken.is_expired (t : PullToken) (now : Int) : Bool :=
  decide (t.expires_at < now)

/-! ## Bitwise-to-arithmetic bridging lemmas -/

theorem and65535 (x : Nat) : x &&& 65535 = x % 65536 := by
  have h := Nat.and_pow_two_sub_one_eq_mod x 16
  norm_num at h
  exact h

theorem and255 (x : Nat) : x &&& 255 = x % 256 := by
  have h := Nat.and_pow_two_sub_one_eq_mod x 8
  norm_num at h
  exact h

theorem shr16 (x : Nat) : x >>> 16 = x / 65536 := by
  have h := Nat.shiftRight_eq_div_pow x 16
  norm_num at h
  exact h

theorem shr8 (x : Nat) : x >>> 8 = x / 256 := by
  have h := Nat.shiftRight_eq_div_pow x 8
  norm_num at h
  exact h

theorem shl8 (x : Nat) : x <<< 8 = x * 256 := by
  have h := Nat.shiftLeft_eq x 8
  norm_num at h
  exact h

/-! ## Word-sum lemmas -/

theorem wordSum_append_even :
    ∀ (pre post : List Nat), pre.length % 2 = 0 →
      wordSum (pre ++ post) = wordSum pre + wordSum post
  | [], post, _ => by simp [wordSum]
  | [b], post, h => by simp at h
  | b0 :: b1 :: rest, post, h => by
    have h2 : rest.length % 2 = 0 := by
      simp [List.length_cons] at h
      omega
    have ih := wordSum_append_even rest post h2
    simp only [List.cons_append, wordSum, List.append_eq]
    omega

theorem wordSum_replicate255 (n : Nat) :
    wordSum (List.replicate (2 * n) 255) = n * 65535 := by
  induction n with
  | zero => simp [wordSum]
  | succ k ih =>
    have h2 : 2 * (k + 1) = (2 * k) + 1 + 1 := by omega
    rw [h2, List.replicate_succ, List.replicate_succ]
    show wordSum (255 :: 255 :: List.replicate (2 * k) 255) = (k + 1) * 65535
    simp only [wordSum, ih, shl8]
    omega

theorem wordSum_lt_of_bytes :
    ∀ (l : List Nat), (∀ b ∈ l, b < 256) →
      wordSum l < 65536 * (l.length + 1)
  | [], _ => by simp [wordSum]
  | [b], h => by
    have hb : b < 256 := h b (by simp)
    simp only [wordSum, shl8, List.length_cons, List.length_nil]
    omega
  | b0 :: b1 :: rest, h => by
    have hb0 : b0 < 256 := h b0 (by simp)
    have hb1 : b1 < 256 := h b1 (by simp)
    have hrest : ∀ b ∈ rest, b < 256 := fun b hb => h b (by simp [hb])
    have ih := wordSum_lt_of_bytes rest hrest
    simp only [wordSum, shl8, List.length_cons]
    omega

/-! ## Checksum round-trip arithmetic -/

theorem ckRound_mult (m : Nat) (h1 : 1 ≤ m) (h2 : m ≤ 65537) :
    foldTwice (m * 65535) % 65536 = 65535 := by
  simp only [foldTwice, and65535, shr16]
  rcases Nat.lt_or_ge m 65537 with hm | hm
  · have hd : m * 65535 / 65536 = m - 1 := by omega
    have hr : m * 65535 % 65536 = 65536 - m := by omega
    rw [hd, hr]
    omega
  · have hm2 : m = 65537 := by omega
    subst hm2
    omega

theorem ckRound_shape (A : Nat) (h : A < 4294967296) :
    ∃ m, 1 ≤ m ∧ m ≤ 65537 ∧ A + (65535 - foldTwice A % 65536) = m * 65535 := by
  simp only [foldTwice, and65535, shr16]
  exact ⟨A / 65536 + 1 + (A / 65536 + A % 65536) / 65536, by omega, by omega, by omega⟩

theorem ckRound (A : Nat) (h : A < 4294967296) :
    65535 - foldTwice (A + (65535 - foldTwice A % 65536)) % 65536 = 0 := by
  obtain ⟨m, h1, h2, heq⟩ := ckRound_shape A h
  rw [heq, ckRound_mult m h1 h2]

theorem checksum_le (data : List Nat) : checksum data ≤ 65535 := by
  simp only [checksum]
  omega

theorem checksum_place (pre post : List Nat) (hpre : pre.length % 2 = 0)
    (hA : wordSum (pre ++ 0 :: 0 :: post) < 4294967296) :
    checksum (pre ++
      (checksum (pre ++ 0 :: 0 :: post) >>> 8) ::
      (checksum (pre ++ 0 :: 0 :: post) &&& 255) :: post) = 0 := by
  have hc : checksum (pre ++ 0 :: 0 :: post) ≤ 65535 := checksum_le _
  have hz : wordSum (pre ++ 0 :: 0 :: post) = wordSum pre + wordSum post := by
    rw [wordSum_append_even pre _ hpre]
    simp [wordSum, shl8]
  have hp : wordSum (pre ++
      (checksum (pre ++ 0 :: 0 :: post) >>> 8) ::
      (checksum (pre ++ 0 :: 0 :: post) &&& 255) :: post) =
      wordSum (pre ++ 0 :: 0 :: post) + checksum (pre ++ 0 :: 0 :: post) := by
    rw [wordSum_append_even pre _ hpre, hz]
    simp only [wordSum, shl8, shr8, and255]
    omega
  simp only [checksum, and65535] at hp hA ⊢
  rw [hp]
  exact ckRound _ hA

theorem byteListOk_mem {l : List Nat} (h : byteListOk l = true) :
    ∀ b ∈ l, b < 256 := by
  simpa [byteListOk, List.all_eq_true] using h

theorem ipBuild_checksum_zero (info : IPInfo) (dl : Nat) (ih : List Nat)
    (h4s : info.src.length = 4) (h4d : info.dst.length = 4)
    (hb : IPInfo.build info dl = some ih) : checksum ih = 0 := by
  rw [IPInfo.build] at hb
  split at hb
  case isFalse => exact absurd hb (by simp)
  case isTrue hguard =>
    obtain ⟨hlen, hproto, hb0, hsrc, hdst⟩ := hguard
    have hsrcm := byteListOk_mem hsrc
    have hdstm := byteListOk_mem hdst
    have hbytes : ∀ b ∈ ((info.ipver <<< 4 ||| 5) ::
        0 :: toBytes2 (20 + dl) ++ [0, 1, 0, 0, 255, info.proto] ++
        0 :: 0 :: (info.src ++ info.dst)), b < 256 := by
      intro b hmem
      simp only [toBytes2, List.cons_append, List.nil_append, List.mem_cons,
        List.mem_append] at hmem
      rcases hmem with h | h | h | h | h | h | h | h | h | h | h | h | h | h
      all_goals first
        | (subst h; omega)
        | (subst h; rw [shr8]; omega)
        | (subst h; rw [and255]; omega)
        | (exact hsrcm b h)
        | (exact hdstm b h)
    have hwlen : ((info.ipver <<< 4 ||| 5) ::
        0 :: toBytes2 (20 + dl) ++ [0, 1, 0, 0, 255, info.proto] ++
        0 :: 0 :: (info.src ++ info.dst)).length = 20 := by
      simp [toBytes2, h4s, h4d]
    have hA := wordSum_lt_of_bytes _ hbytes
    rw [hwlen] at hA
    have hA2 : wordSum ([info.ipver <<< 4 ||| 5,
        0, (20 + dl) >>> 8, (20 + dl) &&& 255, 0, 1, 0, 0, 255, info.proto] ++
        0 :: 0 :: (info.src ++ info.dst)) < 4294967296 := by
      have heq : ((info.ipver <<< 4 ||| 5) ::
          0 :: toBytes2 (20 + dl) ++ [0, 1, 0, 0, 255, info.proto] ++
          0 :: 0 :: (info.src ++ info.dst)) =
          ([info.ipver <<< 4 ||| 5,
            0, (20 + dl) >>> 8, (20 + dl) &&& 255, 0, 1, 0, 0, 255, info.proto] ++
            0 :: 0 :: (info.src ++ info.dst)) := by
        simp [toBytes2]
      rw [heq] at hA
      omega
    have key := checksum_place
      [info.ipver <<< 4 ||| 5,
        0, (20 + dl) >>> 8, (20 + dl) &&& 255, 0, 1, 0, 0, 255, info.proto]
      (info.src ++ info.dst) (by simp) hA2
    have hih : ih = ([info.ipver <<< 4 ||| 5,
        0, (20 + dl) >>> 8, (20 + dl) &&& 255, 0, 1, 0, 0, 255, info.proto] ++
        (checksum ([info.ipver <<< 4 ||| 5,
          0, (20 + dl) >>> 8, (20 + dl) &&& 255, 0, 1, 0, 0, 255, info.proto] ++
          0 :: 0 :: (info.src ++ info.dst)) >>> 8) ::
        (checksum ([info.ipver <<< 4 ||| 5,
          0, (20 + dl) >>> 8, (20 + dl) &&& 255, 0, 1, 0, 0, 255, info.proto] ++
          0 :: 0 :: (info.src ++ info.dst)) &&& 255) :: (info.src ++ info.dst)) := by
      simp only [Option.some_inj] at hb
      rw [← hb]
      simp [toBytes2]
    rw [hih]
    exact key

/-- C3 (amended): placing the big-endian checksum of a buffer with a zeroed
16-bit-aligned slot back at that slot yields a buffer whose checksum is 0
whenever the word sum of the zeroed buffer is below 2 to the 32 (true of
every buffer shorter than about 131072 bytes); and every IPv4 header
produced by IPInfo.build (4-byte addresses) verifies to checksum 0.  The
fully general statement over all buffers is false, see the
counterexample. -/
theorem checksum_roundtrip_amended :
    (∀ pre post : List Nat, pre.length % 2 = 0 →
      wordSum (pre ++ 0 :: 0 :: post) < 4294967296 →
      checksum (pre ++
        (checksum (pre ++ 0 :: 0 :: post) >>> 8) ::
        (checksum (pre ++ 0 :: 0 :: post) &&& 255) :: post) = 0) ∧
    (∀ (info : IPInfo) (dl : Nat) (ih : List Nat),
      info.src.length = 4 → info.dst.length = 4 →
      IPInfo.build info dl = some ih → checksum ih = 0) :=
  ⟨checksum_place, ipBuild_checksum_zero⟩

/-- Bridging lemma: checksum through an already-computed word sum. -/
theorem checksum_of_wordSum (l : List Nat) (n : Nat) (h : wordSum l = n) :
    checksum l = 65535 - (foldTwice n &&& 65535) := by
  rw [checksum, h]

/-- C3 counterexample: a 131080-byte buffer (65538 words of 0xFFFF followed
by the word 0x0001 and a zeroed checksum slot at its end) has checksum
0xFFFF; placing 0xFFFF big-endian at the slot yields a buffer whose
checksum over the covered range is 0xFFFF, not 0. -/
theorem checksum_roundtrip_counterexample :
    checksum (List.replicate 131076 255 ++ [0, 1, 0, 0]) = 65535 ∧
    checksum (List.replicate 131076 255 ++ [0, 1, 255, 255]) ≠ 0 := by
  have hrep : (131076 : Nat) = 2 * 65538 := by norm_num
  have hlen : (List.replicate 131076 (255 : Nat)).length % 2 = 0 := by
    rw [List.length_replicate]
  have h1 : wordSum (List.replicate 131076 (255 : Nat) ++ [0, 1, 0, 0]) =
      4295032831 := by
    rewrite [wordSum_append_even _ _ hlen, hrep, wordSum_replicate255]
    simp only [wordSum, shl8]
  have h2 : wordSum (List.replicate 131076 (255 : Nat) ++ [0, 1, 255, 255]) =
      4295098366 := by
    rewrite [wordSum_append_even _ _ hlen, hrep, wordSum_replicate255]
    simp only [wordSum, shl8]
  constructor
  · rewrite [checksum_of_wordSum _ _ h1]
    simp only [foldTwice, and65535, shr16]
  · rewrite [checksum_of_wordSum _ _ h2]
    simp only [foldTwice, and65535, shr16]
    norm_num

/-- C3 witness: the amended round-trip theorem applied to the two-byte
buffer that is nothing but the slot, and the IPv4-header part applied to
the header built for 192.168.2.1 to 192.168.2.2, protocol 0, no payload. -/
theorem checksum_roundtrip_amended_witness :
    (([] : List Nat).length % 2 = 0) ∧
    wordSum (([] : List Nat) ++ 0 :: 0 :: []) < 4294967296 ∧
    checksum (([] : List Nat) ++
      (checksum (([] : List Nat) ++ 0 :: 0 :: []) >>> 8) ::
      (checksum (([] : List Nat) ++ 0 :: 0 :: []) &&& 255) :: []) = 0 ∧
    IPInfo.build { src := [192, 168, 2, 1], dst := [192, 168, 2, 2], proto := 0 } 0 =
      some [69, 0, 0, 20, 0, 1, 0, 0, 255, 0, 54, 149, 192, 168, 2, 1, 192, 168, 2, 2] ∧
    checksum [69, 0, 0, 20, 0, 1, 0, 0, 255, 0, 54, 149, 192, 168, 2, 1, 192, 168, 2, 2] = 0 :=
  ⟨rfl, by decide, checksum_roundtrip_amended.1 [] [] rfl (by decide),
   by decide,
   checksum_roundtrip_amended.2
     { src := [192, 168, 2, 1], dst := [192, 168, 2, 2], proto := 0 } 0 _
     rfl rfl (by decide)⟩

/-- C4 (code evaluation at the failing input): the snd_nxt bookkeeping of
the proxy-reader task uses plain unbounded integer addition, so from
snd_nxt = 2 pow 32 - 1 a two-byte read yields 2 pow 32 + 1 rather than the
32-bit wrap to 1, and TCPInfo.build fails (int.to_bytes raises
OverflowError) for any sequence number of at least 2 pow 32: sequence
arithmetic is not performed modulo 2 pow 32 and the emitted segment cannot
be built. -/
theorem seq_arithmetic_not_modular :
    proxyReaderSndNxt 4294967295 [[0, 0]] = 4294967297 ∧
    4294967297 % 4294967296 = 1 ∧
    TCPInfo.build
      { sport := 8000, dport := 1234, seq := 4294967296, ack := 1, flags := 24 }
      [127, 0, 0, 1] [192, 168, 64, 1] [] = none :=
  ⟨rfl, by norm_num, by decide⟩

/-- C9 counterexample: for a token issued at instant 0 with expires_in 300
seconds, the claim makes the token expired at the boundary instant
240 seconds (in microseconds), but is_expired uses a strict comparison and
still reports false there. -/
theorem pull_token_boundary_counterexample :
    (240000000 : Int) ≥
      PullToken.expires_at { token := "tok", expires_in := 300, issued_at := 0 } ∧
    PullToken.is_expired { token := "tok", expires_in := 300, issued_at := 0 }
      240000000 = false := by
  constructor
  · rw [PullToken.expires_at]; norm_num
  · rw [PullToken.is_expired, PullToken.expires_at]; norm_num

/-- C9 (amended): is_expired holds iff the current instant is strictly
greater than issued_at plus expires_in seconds minus the 60-second margin;
at exactly that boundary instant the token is not yet expired. -/
theorem pull_token_is_expired_amended (t : PullToken) (now : Int) :
    PullToken.is_expired t now = true ↔
      now > t.issued_at + (t.expires_in - 60) * 1000000 := by
  simp [PullToken.is_expired, PullToken.expires_at]

/-! ## Overlay lowerdir ordering -/

theorem addVolumes_eq :
    ∀ (vs : List String) (lowers : List String) (v : String),
      addVolumes lowers v vs = lowers ++ List.replicate vs.length v
  | [], lowers, v => by simp [addVolumes]
  | w :: ws, lowers, v => by
    have ih := addVolumes_eq ws (lowers ++ [v]) v
    simp only [addVolumes, List.foldl_cons] at ih ⊢
    rw [ih, List.append_assoc]
    simp [List.replicate_succ]

/-- C7 (amended): without volumes, the colon-separated lowerdir option
lists the image layers top-to-bottom (last layer first); when volumes are
supplied the volumes directory is appended to the internal lowers list once
per volume entry, and therefore comes FIRST in the reversed colon-separated
lowerdir option, before the top layer, not last. -/
theorem lowerdir_order_amended (lowers : List String) (vdir : String)
    (vs : List String) :
    mountLowerdir lowers = String.intercalate ":" lowers.reverse ∧
    mountLowerdir (addVolumes lowers vdir vs) =
      String.intercalate ":" (List.replicate vs.length vdir ++ lowers.reverse) := by
  constructor
  · rfl
  · rw [mountLowerdir, addVolumes_eq, List.reverse_append, List.reverse_replicate]

/-- C7 counterexample: with bottom layer l0, top layer l1 and one volume,
the emitted lowerdir option is volumes:l1:l0, so the volumes directory
comes first in the colon-separated list rather than last as claimed. -/
theorem lowerdir_order_counterexample :
    mountLowerdir (addVolumes ["l0", "l1"] "volumes" ["src:tgt"]) = "volumes:l1:l0" ∧
    mountLowerdir (addVolumes ["l0", "l1"] "volumes" ["src:tgt"]) ≠ "l1:l0:volumes" := by
  constructor
  · rfl
  · decide

/-! ## Container store upsert behaviour -/

theorem lookup_upsertContainer (m : List (String × Container)) (k : String)
    (c : Container) (j : String) :
    lookupContainer (upsertContainer m k c) j =
      if j = k then some c else lookupContainer m j := by
  induction m with
  | nil =>
    simp only [upsertContainer, lookupContainer]
    by_cases h : j = k
    · rw [if_pos h.symm, if_pos h]
    · rw [if_neg (fun hh => h hh.symm), if_neg h]
  | cons p rest ih =>
    obtain ⟨k2, v2⟩ := p
    simp only [upsertContainer]
    by_cases h : k2 = k
    · rw [if_pos h]
      simp only [lookupContainer]
      by_cases h2 : k2 = j
      · rw [if_pos h2, if_pos (h2.symm.trans h)]
      · rw [if_neg h2, if_neg (fun hh => h2 (h ▸ hh.symm)), if_neg h2]
    · rw [if_neg h]
      simp only [lookupContainer, ih]
      by_cases h2 : k2 = j
      · have hjk : ¬ j = k := fun hh => h (h2.trans hh)
        rw [if_pos h2, if_neg hjk, if_pos h2]
      · rw [if_neg h2]
        by_cases h3 : j = k
        · rw [if_pos h3, if_pos h3]
        · rw [if_neg h3, if_neg h3, if_neg h2]

/-- C8 (code evaluation at the failing input): on a blank containers.json
(exactly what touch leaves behind for a never-written store)
store_container swallows the JSON decode error and writes nothing, so a
following get_container returns none instead of the stored container; on a
file already holding a valid JSON object the operation is a genuine upsert:
the stored id maps to the new container and every other id is unchanged. -/
theorem store_container_blank_drops :
    store_container ContainersFile.blank
      { container_id := "c1", pid := none,
        image_registry := "docker.io", image_name := "library/alpine" } =
      ContainersFile.blank ∧
    get_container (store_container ContainersFile.blank
      { container_id := "c1", pid := none,
        image_registry := "docker.io", image_name := "library/alpine" }) "c1" =
      Except.ok none ∧
    store_container ContainersFile.absent
      { container_id := "c1", pid := none,
        image_registry := "docker.io", image_name := "library/alpine" } =
      ContainersFile.blank ∧
    (∀ (m : List (String × Container)) (c : Container) (j : String),
      get_container (store_container (ContainersFile.stored m) c) j =
        Except.ok (if j = c.container_id then some c else lookupContainer m j)) := by
  refine ⟨rfl, rfl, rfl, ?_⟩
  intro m c j
  simp [store_container, get_container, lookup_upsertContainer]

/-! ## Folded minimum and maximum over Int lists -/

theorem foldl_min_le_init :
    ∀ (is : List Int) (i : Int), is.foldl min i ≤ i
  | [], i => le_refl i
  | x :: xs, i =>
    le_trans (foldl_min_le_init xs (min i x)) (min_le_left i x)

theorem foldl_min_le_mem :
    ∀ (is : List Int) (i x : Int), x ∈ is → is.foldl min i ≤ x
  | [], _, _, h => absurd h (List.not_mem_nil _)
  | y :: ys, i, x, h => by
    rcases List.mem_cons.mp h with h1 | h2
    · subst h1
      exact le_trans (foldl_min_le_init ys (min i x)) (min_le_right i x)
    · exact foldl_min_le_mem ys (min i y) x h2

theorem foldl_min_mem :
    ∀ (is : List Int) (i : Int), is.foldl min i = i ∨ is.foldl min i ∈ is
  | [], _ => Or.inl rfl
  | y :: ys, i => by
    rcases foldl_min_mem ys (min i y) with h | h
    · rcases min_cases i y with ⟨hm, _⟩ | ⟨hm, _⟩
      · exact Or.inl (by rw [List.foldl_cons, h, hm])
      · refine Or.inr ?_
        rw [List.foldl_cons, h, hm]
        exact List.mem_cons_self y ys
    · exact Or.inr (List.mem_cons_of_mem y h)

theorem foldl_max_init_le :
    ∀ (is : List Int) (i : Int), i ≤ is.foldl max i
  | [], i => le_refl i
  | x :: xs, i =>
    le_trans (le_max_left i x) (foldl_max_init_le xs (max i x))

theorem foldl_max_mem_le :
    ∀ (is : List Int) (i x : Int), x ∈ is → x ≤ is.foldl max i
  | [], _, _, h => absurd h (List.not_mem_nil _)
  | y :: ys, i, x, h => by
    rcases List.mem_cons.mp h with h1 | h2
    · subst h1
      exact le_trans (le_max_right i x) (foldl_max_init_le ys (max i x))
    · exact foldl_max_mem_le ys (max i y) x h2

theorem foldl_max_mem :
    ∀ (is : List Int) (i : Int), is.foldl max i = i ∨ is.foldl max i ∈ is
  | [], _ => Or.inl rfl
  | y :: ys, i => by
    rcases foldl_max_mem ys (max i y) with h | h
    · rcases max_cases i y with ⟨hm, _⟩ | ⟨hm, _⟩
      · exact Or.inl (by rw [List.foldl_cons, h, hm])
      · refine Or.inr ?_
        rw [List.foldl_cons, h, hm]
        exact List.mem_cons_self y ys
    · exact Or.inr (List.mem_cons_of_mem y h)

/-- C5: every uid/gid map argument list formatted by _format_args starts
with 0, root_outer, 1; when ids other than 0 remain, it continues with
exactly their numeric minimum, the subordinate base, and
max - min + 1; and on base 100000, invoker uid 1000 and container ids
0, 1, 1000 the emitted arguments are 0, 1000, 1, 1, 100000, 1000. -/
theorem format_args_spec :
    (∀ (ids : List String) (start rootMap : String),
      ids.filter (fun s => s != "0") = [] →
      formatArgs ids start rootMap = some ["0", rootMap, "1"]) ∧
    (∀ (ids : List String) (start rootMap : String) (ints : List Int),
      mapPyInt (ids.filter (fun s => s != "0")) = some ints → ints ≠ [] →
      ∃ mn mx, mn ∈ ints ∧ mx ∈ ints ∧
        (∀ x ∈ ints, mn ≤ x) ∧ (∀ x ∈ ints, x ≤ mx) ∧
        formatArgs ids start rootMap =
          some ["0", rootMap, "1", toString mn, start, toString (mx - mn + 1)]) ∧
    formatArgs ["0", "1", "1000"] "100000" "1000" =
      some ["0", "1000", "1", "1", "100000", "1000"] := by
  refine ⟨?_, ?_, ?_⟩
  · intro ids start rootMap h
    simp only [formatArgs]
    rw [h]
  · intro ids start rootMap ints hmap hne
    cases hrest : ids.filter (fun s => s != "0") with
    | nil =>
      rw [hrest] at hmap
      simp only [mapPyInt, Option.some_inj] at hmap
      exact absurd hmap.symm hne
    | cons r rs =>
      rw [hrest] at hmap
      simp only [mapPyInt] at hmap
      cases hr : pyInt r with
      | none => rw [hr] at hmap; simp at hmap
      | some i =>
        rw [hr] at hmap
        cases hrs : mapPyInt rs with
        | none => rw [hrs] at hmap; simp at hmap
        | some is =>
          rw [hrs] at hmap
          simp only [Option.some_inj] at hmap
          subst hmap
          refine ⟨is.foldl min i, is.foldl max i, ?_, ?_, ?_, ?_, ?_⟩
          · rcases foldl_min_mem is i with h | h
            · rw [h]; exact List.mem_cons_self i is
            · exact List.mem_cons_of_mem i h
          · rcases foldl_max_mem is i with h | h
            · rw [h]; exact List.mem_cons_self i is
            · exact List.mem_cons_of_mem i h
          · intro x hx
            rcases List.mem_cons.mp hx with h | h
            · subst h; exact foldl_min_le_init is x
            · exact foldl_min_le_mem is i x h
          · intro x hx
            rcases List.mem_cons.mp hx with h | h
            · subst h; exact foldl_max_init_le is x
            · exact foldl_max_mem_le is i x h
          · have hm2 : mapPyInt (r :: rs) = some (i :: is) := by
              simp [mapPyInt, hr, hrs]
            simp [formatArgs, hrest, hm2]
  · rfl

/-- C5 witness: the empty-remainder case applied to ids containing only 0,
and the general case applied to the spec example (base 100000, invoker
1000, ids 0, 1, 1000). -/
theorem format_args_spec_witness :
    (["0"].filter (fun s => s != "0") = []) ∧
    formatArgs ["0"] "100000" "1000" = some ["0", "1000", "1"] ∧
    mapPyInt (["0", "1", "1000"].filter (fun s => s != "0")) =
      some [(1 : Int), 1000] ∧
    ([(1 : Int), 1000] ≠ []) ∧
    (∃ mn mx, mn ∈ [(1 : Int), 1000] ∧ mx ∈ [(1 : Int), 1000] ∧
      (∀ x ∈ [(1 : Int), 1000], mn ≤ x) ∧ (∀ x ∈ [(1 : Int), 1000], x ≤ mx) ∧
      formatArgs ["0", "1", "1000"] "100000" "1000" =
        some ["0", "1000", "1", toString mn, "100000", toString (mx - mn + 1)]) :=
  ⟨rfl, format_args_spec.1 ["0"] "100000" "1000" rfl, by decide, by decide,
   format_args_spec.2.1 ["0", "1", "1000"] "100000" "1000" [(1 : Int), 1000]
     (by decide) (by decide)⟩

/-- C6 counterexample: a configuration with both daemon and remove set and a
valid docker.io image reference is not rejected: run_command forks and
launches the child (the full parent trace is the launch sequence with no
configError event and no exit, wait, or removal). -/
theorem daemon_rm_not_rejected_counterexample :
    run_command daemonRmConfig 42 7 =
      [RunEvent.storeContainerRecord none, RunEvent.prepareFS,
       RunEvent.registerVolumes, RunEvent.readContainerSpec,
       RunEvent.forkChild 42, RunEvent.storeContainerRecord (some 42),
       RunEvent.applyUidMap 42, RunEvent.applyGidMap 42,
       RunEvent.startNetStack] ∧
    RunEvent.forkChild 42 ∈ run_command daemonRmConfig 42 7 ∧
    RunEvent.configError ∉ run_command daemonRmConfig 42 7 := by
  refine ⟨?_, ?_, ?_⟩ <;> decide

/-- C6 (amended): run_command performs no daemon-and-remove validation: for
every configuration with a docker.io image reference the child is forked
and launched, removal happens exactly when the run is foreground
(daemon false) and remove is set, and no configuration error is raised;
moreover the argparse run subparser defines no daemon option at all, so the
combination cannot even be produced from the command line. -/
theorem daemon_rm_amended (cfg : ContainerConfig) (pid code : Nat)
    (h : strStartsWith cfg.image_name "docker.io/" = true) :
    RunEvent.forkChild pid ∈ run_command cfg pid code ∧
    (RunEvent.removeContainerRecord ∈ run_command cfg pid code ↔
      cfg.daemon = false ∧ cfg.remove = true) ∧
    RunEvent.configError ∉ run_command cfg pid code ∧
    "--daemon" ∉ runParserOptionStrings ∧ "-d" ∉ runParserOptionStrings := by
  have hcond : ¬ ¬ strStartsWith cfg.image_name "docker.io/" = true := fun hh => hh h
  rw [run_command, if_neg hcond]
  cases hd : cfg.daemon <;> cases hr : cfg.remove <;>
    simp [runParserOptionStrings]

/-- C6 witness: the amended theorem applied to the daemon-and-remove
configuration with image docker.io/library/alpine, child pid 42 and child
exit status 7. -/
theorem daemon_rm_amended_witness :
    (strStartsWith daemonRmConfig.image_name "docker.io/" = true) ∧
    (RunEvent.forkChild 42 ∈ run_command daemonRmConfig 42 7 ∧
    (RunEvent.removeContainerRecord ∈ run_command daemonRmConfig 42 7 ↔
      daemonRmConfig.daemon = false ∧ daemonRmConfig.remove = true) ∧
    RunEvent.configError ∉ run_command daemonRmConfig 42 7 ∧
    "--daemon" ∉ runParserOptionStrings ∧ "-d" ∉ runParserOptionStrings) :=
  ⟨by decide, daemon_rm_amended daemonRmConfig 42 7 (by decide)⟩

/-! ## TCP build and map helper lemmas -/

theorem upsertTcb_idem (m : TcbMap) (k : List Nat × Nat × List Nat × Nat)
    (v1 v2 : TCB) : upsertTcb (upsertTcb m k v1) k v2 = upsertTcb m k v2 := by
  induction m with
  | nil => simp [upsertTcb]
  | cons p rest ih =>
    obtain ⟨k2, w⟩ := p
    by_cases h : k2 = k
    · simp [upsertTcb, h]
    · simp [upsertTcb, h, ih]

theorem ipBuild_some_length (info : IPInfo) (dl : Nat) (ih : List Nat)
    (h : IPInfo.build info dl = some ih) :
    ih.length = 12 + info.src.length + info.dst.length := by
  rw [IPInfo.build] at h
  split at h
  · simp only [Option.some_inj] at h
    subst h
    simp [toBytes2]
    omega
  · exact absurd h (by simp)

theorem tcpBuild_some_getD13 (info : TCPInfo) (s d : List Nat) (th : List Nat)
    (h : TCPInfo.build info s d [] = some th) : th.getD 13 0 = info.flags := by
  rw [TCPInfo.build] at h
  split at h
  · simp only [Option.some_inj] at h
    subst h
    simp [toBytes2, toBytes4, List.getD_cons_succ, List.getD_cons_zero]
  · exact absurd h (by simp)

theorem ipBuild_isSome (src dst : List Nat) (dl : Nat)
    (h1 : 20 + dl < 65536) (hsb : byteListOk src = true)
    (hdb : byteListOk dst = true) :
    ∃ ih, IPInfo.build { src := src, dst := dst, proto := 6 } dl = some ih := by
  rw [IPInfo.build]
  rw [if_pos]
  · exact ⟨_, rfl⟩
  · refine ⟨h1, ?_, ?_, hsb, hdb⟩
    · show (6 : Nat) < 256
      decide
    · show ((4 : Nat) <<< 4 ||| 5) < 256
      decide

theorem tcpBuild_isSome (info : TCPInfo) (s d : List Nat)
    (h1 : info.sport < 65536) (h2 : info.dport < 65536)
    (h3 : info.seq < 4294967296) (h4 : info.ack < 4294967296)
    (h5 : info.flags < 256)
    (h7 : byteListOk s = true) (h8 : byteListOk d = true) :
    ∃ th, TCPInfo.build info s d [] = some th := by
  rw [TCPInfo.build]
  rw [if_pos]
  · exact ⟨_, rfl⟩
  · exact ⟨h1, h2, h3, h4, h5, by simp, h7, h8⟩

/-- Combined buildResponse evaluation for an empty payload under the byte
and range side conditions of the TCB fields. -/
theorem buildResponse_some (tcb : TCB) (flags : Nat)
    (hs4 : tcb.src_ip.length = 4) (hsb : byteListOk tcb.src_ip = true)
    (hd4 : tcb.dst_ip.length = 4) (hdb : byteListOk tcb.dst_ip = true)
    (hsp : tcb.src_port < 65536) (hdp : tcb.dst_port < 65536)
    (hseq : tcb.snd_nxt < 4294967296) (hack : tcb.rcv_nxt < 4294967296)
    (hfl : flags < 256) :
    ∃ ih th,
      IPInfo.build { src := tcb.dst_ip, dst := tcb.src_ip, proto := 6 } 20 = some ih ∧
      TCPInfo.build
        { sport := tcb.src_port, dport := tcb.dst_port,
          seq := tcb.snd_nxt, ack := tcb.rcv_nxt, flags := flags }
        tcb.dst_ip tcb.src_ip [] = some th ∧
      buildResponse tcb flags [] = some (ih ++ th) ∧
      (ih ++ th).getD 33 0 = flags := by
  obtain ⟨ih, hip⟩ := ipBuild_isSome tcb.dst_ip tcb.src_ip 20 (by norm_num) hdb hsb
  obtain ⟨th, htc⟩ := tcpBuild_isSome
    { sport := tcb.src_port, dport := tcb.dst_port,
      seq := tcb.snd_nxt, ack := tcb.rcv_nxt, flags := flags }
    tcb.dst_ip tcb.src_ip hsp hdp hseq hack hfl hdb hsb
  refine ⟨ih, th, hip, htc, ?_, ?_⟩
  · rw [buildResponse]
    simp only [List.length_nil, Nat.add_zero]
    rw [hip, htc]
  · have hlen : ih.length = 20 := by
      have := ipBuild_some_length _ _ _ hip
      simp only at this
      omega
    rw [List.getD_append_right _ _ _ _ (by omega : ih.length ≤ 33), hlen]
    exact tcpBuild_some_getD13 _ _ _ _ htc

/-- C1: for an incoming segment whose swapped four-tuple key is absent from
the TCB map, a segment without SYN is dropped silently (the map is
unchanged and no packet or other effect is produced, in particular no RST),
while a segment with SYN allocates a TCB stored under the key with
state LISTEN, irs = seq, rcv_nxt = seq + 1, iss = 1, snd_nxt = 1,
snd_una = 0, and send and receive windows both 8192. -/
theorem tcb_creation_policy (m : TcbMap) (iph : IPInfo) (tcph : TCPInfo)
    (data : List Nat) (habs : findTcb m (tcbKeyOf iph tcph) = none) :
    (tcph.flags &&& TCPFlags.SYN = 0 →
      doHandle m iph tcph data = some (m, [])) ∧
    (tcph.flags &&& TCPFlags.SYN ≠ 0 →
      ∃ t, getTcb m iph tcph = some (upsertTcb m (tcbKeyOf iph tcph) t, t) ∧
        t.state = TCPState.LISTEN ∧ t.irs = tcph.seq ∧
        t.rcv_nxt = tcph.seq + 1 ∧ t.iss = 1 ∧ t.snd_nxt = 1 ∧
        t.snd_una = 0 ∧ t.snd_wnd = 8192 ∧ t.rcv_wnd = 8192 ∧
        t.src_port = tcph.dport ∧ t.dst_port = tcph.sport ∧
        t.src_ip = iph.src ∧ t.dst_ip = iph.dst) := by
  constructor
  · intro hsyn0
    simp [doHandle, getTcb, habs, hsyn0]
  · intro hsyn
    refine ⟨{
        src_ip := iph.src, dst_ip := iph.dst, src_port := tcph.dport,
        dst_port := tcph.sport, snd_una := 0, snd_nxt := 1, snd_wnd := 8192,
        snd_up := 0, snd_wl1 := 0, snd_wl2 := 0, iss := 1,
        rcv_nxt := tcph.seq + 1, rcv_wnd := 8192, rcv_up := 0, irs := tcph.seq,
        state := TCPState.LISTEN, proxyConnected := false },
      ?_, rfl, rfl, rfl, rfl, rfl, rfl, rfl, rfl, rfl, rfl, rfl, rfl⟩
    simp [getTcb, habs, hsyn]

/-- C1 witness: the theorem applied at the empty TCB map with a non-SYN ACK
segment (dropped without effect) and with the SYN flag case instantiated. -/
theorem tcb_creation_policy_witness :
    (findTcb [] (tcbKeyOf { src := [192, 168, 64, 1], dst := [10, 0, 0, 2], proto := 6 }
      { sport := 1234, dport := 8000, seq := 456, ack := 0, flags := 16 }) = none) ∧
    ((16 : Nat) &&& TCPFlags.SYN = 0) ∧
    doHandle [] { src := [192, 168, 64, 1], dst := [10, 0, 0, 2], proto := 6 }
      { sport := 1234, dport := 8000, seq := 456, ack := 0, flags := 16 } [] =
      some ([], []) :=
  ⟨rfl, by decide,
   (tcb_creation_policy [] _ _ [] rfl).1 (by decide)⟩

/-- Dispatch of _do_handle for a TCB in LISTEN state: only the listen
handler runs, and the handled TCB is stored back under the segment key. -/
theorem doHandle_listen (m : TcbMap) (iph : IPInfo) (tcph : TCPInfo)
    (data : List Nat) (m1 : TcbMap) (tcb tcb2 : TCB) (effs2 : List Effect)
    (hget : getTcb m iph tcph = some (m1, tcb))
    (hst : tcb.state = TCPState.LISTEN)
    (hh : handleListenState tcph tcb = some (tcb2, effs2)) :
    doHandle m iph tcph data =
      some (upsertTcb m1 (tcbKeyOf iph tcph) tcb2, effs2) := by
  rw [doHandle, hget]
  simp only []
  rw [if_neg (show ¬ tcb.state = TCPState.ESTABLISHED by rw [hst]; decide)]
  simp only [hst, hh, List.nil_append]

/-- Dispatch of _do_handle for a TCB in ESTABLISHED state whose handler
leaves it in ESTABLISHED: only the established handler runs. -/
theorem doHandle_established_stay (m : TcbMap) (iph : IPInfo) (tcph : TCPInfo)
    (data : List Nat) (m1 : TcbMap) (tcb tcb1 : TCB) (effs1 : List Effect)
    (hget : getTcb m iph tcph = some (m1, tcb))
    (hst : tcb.state = TCPState.ESTABLISHED)
    (hh : handleEstablishedState tcph tcb data = some (tcb1, effs1))
    (hst1 : tcb1.state = TCPState.ESTABLISHED) :
    doHandle m iph tcph data =
      some (upsertTcb m1 (tcbKeyOf iph tcph) tcb1, effs1) := by
  rw [doHandle, hget]
  simp only []
  rw [if_pos hst, hh]
  simp only [hst1]

/-- C2 (amended): a SYN for a fresh four-tuple, handled in the LISTEN state
of the newly created TCB, opens exactly one host-side connection to
127.0.0.1 at the port the container dialed (the destination port of the
segment, stored in the TCB as src_port by the key swap), then emits exactly
one SYN+ACK whose seq is the snd_nxt before sending (1) and whose ack is
rcv_nxt (seq + 1), increments snd_nxt to 2 and leaves the TCB in
SYN_RECEIVED; the host endpoint is the constant 127.0.0.1 whatever the
destination IP of the segment was.  This holds for every parsed segment
except the boundary sequence number 2 pow 32 - 1: there the ack field
seq + 1 no longer fits 32 bits, TCPInfo.build fails (OverflowError in
int.to_bytes) after the host connection was already opened, no SYN+ACK is
emitted and snd_nxt is not incremented — see the counterexample, where
doHandle returns none (the modelled uncaught exception).  The remaining
side conditions (4-byte addresses with byte-sized elements, 16-bit ports)
hold for every segment produced by the parsers. -/
theorem listen_syn_handling (m : TcbMap) (iph : IPInfo) (tcph : TCPInfo)
    (data : List Nat)
    (habs : findTcb m (tcbKeyOf iph tcph) = none)
    (hsyn : tcph.flags &&& TCPFlags.SYN ≠ 0)
    (hs4 : iph.src.length = 4) (hsb : byteListOk iph.src = true)
    (hd4 : iph.dst.length = 4) (hdb : byteListOk iph.dst = true)
    (hsp : tcph.sport < 65536) (hdp : tcph.dport < 65536)
    (hseq1 : tcph.seq + 1 < 4294967296) :
    ∃ ih th,
      IPInfo.build { src := iph.dst, dst := iph.src, proto := 6 } 20 = some ih ∧
      TCPInfo.build
        { sport := tcph.dport, dport := tcph.sport, seq := 1,
          ack := tcph.seq + 1, flags := TCPFlags.ACK ||| TCPFlags.SYN }
        iph.dst iph.src [] = some th ∧
      doHandle m iph tcph data = some
        (upsertTcb m (tcbKeyOf iph tcph)
          {
            src_ip := iph.src, dst_ip := iph.dst, src_port := tcph.dport,
            dst_port := tcph.sport, snd_una := 0, snd_nxt := 2, snd_wnd := 8192,
            snd_up := 0, snd_wl1 := 0, snd_wl2 := 0, iss := 1,
            rcv_nxt := tcph.seq + 1, rcv_wnd := 8192, rcv_up := 0,
            irs := tcph.seq,
            state := TCPState.SYN_RECEIVED, proxyConnected := true },
         [Effect.hostConnect "127.0.0.1" tcph.dport, Effect.emit (ih ++ th)]) := by
  obtain ⟨ih, th, hip, htc, hbr, hgd⟩ := buildResponse_some
    {
      src_ip := iph.src, dst_ip := iph.dst, src_port := tcph.dport,
      dst_port := tcph.sport, snd_una := 0, snd_nxt := 1, snd_wnd := 8192,
      snd_up := 0, snd_wl1 := 0, snd_wl2 := 0, iss := 1,
      rcv_nxt := tcph.seq + 1, rcv_wnd := 8192, rcv_up := 0,
      irs := tcph.seq,
      state := TCPState.SYN_RECEIVED, proxyConnected := true }
    (TCPFlags.ACK ||| TCPFlags.SYN)
    hs4 hsb hd4 hdb hdp hsp (by norm_num) hseq1 (by decide)
  have hget : getTcb m iph tcph = some
      (upsertTcb m (tcbKeyOf iph tcph)
        {
          src_ip := iph.src, dst_ip := iph.dst, src_port := tcph.dport,
          dst_port := tcph.sport, snd_una := 0, snd_nxt := 1, snd_wnd := 8192,
          snd_up := 0, snd_wl1 := 0, snd_wl2 := 0, iss := 1,
          rcv_nxt := tcph.seq + 1, rcv_wnd := 8192, rcv_up := 0,
          irs := tcph.seq,
          state := TCPState.LISTEN, proxyConnected := false },
       {
          src_ip := iph.src, dst_ip := iph.dst, src_port := tcph.dport,
          dst_port := tcph.sport, snd_una := 0, snd_nxt := 1, snd_wnd := 8192,
          snd_up := 0, snd_wl1 := 0, snd_wl2 := 0, iss := 1,
          rcv_nxt := tcph.seq + 1, rcv_wnd := 8192, rcv_up := 0,
          irs := tcph.seq,
          state := TCPState.LISTEN, proxyConnected := false }) := by
    simp [getTcb, habs, hsyn]
  refine ⟨ih, th, hip, htc, ?_⟩
  have hh : handleListenState tcph
      {
        src_ip := iph.src, dst_ip := iph.dst, src_port := tcph.dport,
        dst_port := tcph.sport, snd_una := 0, snd_nxt := 1, snd_wnd := 8192,
        snd_up := 0, snd_wl1 := 0, snd_wl2 := 0, iss := 1,
        rcv_nxt := tcph.seq + 1, rcv_wnd := 8192, rcv_up := 0,
        irs := tcph.seq,
        state := TCPState.LISTEN, proxyConnected := false } =
      some ({
        src_ip := iph.src, dst_ip := iph.dst, src_port := tcph.dport,
        dst_port := tcph.sport, snd_una := 0, snd_nxt := 2, snd_wnd := 8192,
        snd_up := 0, snd_wl1 := 0, snd_wl2 := 0, iss := 1,
        rcv_nxt := tcph.seq + 1, rcv_wnd := 8192, rcv_up := 0,
        irs := tcph.seq,
        state := TCPState.SYN_RECEIVED, proxyConnected := true },
       [Effect.hostConnect "127.0.0.1" tcph.dport, Effect.emit (ih ++ th)]) := by
    rw [handleListenState, if_pos hsyn]
    simp only []
    rw [hbr]
    simp only [sendResponse, hgd]
    rw [if_pos (by decide : (TCPFlags.ACK ||| TCPFlags.SYN) &&& TCPFlags.SYN ≠ 0 ∨
      (TCPFlags.ACK ||| TCPFlags.SYN) &&& TCPFlags.FIN ≠ 0)]
  rw [doHandle_listen m iph tcph data _ _ _ _ hget rfl hh, upsertTcb_idem]

/-- C2 witness: the theorem applied to a SYN from 192.168.64.1:1234 to
10.0.0.2:8000 with sequence number 456 on an empty TCB map. -/
theorem listen_syn_handling_witness :
    (findTcb [] (tcbKeyOf { src := [192, 168, 64, 1], dst := [10, 0, 0, 2], proto := 6 }
      { sport := 1234, dport := 8000, seq := 456, ack := 0, flags := 2 }) = none) ∧
    ((2 : Nat) &&& TCPFlags.SYN ≠ 0) ∧
    (∃ ih th,
      IPInfo.build { src := [10, 0, 0, 2], dst := [192, 168, 64, 1], proto := 6 } 20 =
        some ih ∧
      TCPInfo.build
        { sport := 8000, dport := 1234, seq := 1, ack := 456 + 1,
          flags := TCPFlags.ACK ||| TCPFlags.SYN }
        [10, 0, 0, 2] [192, 168, 64, 1] [] = some th ∧
      doHandle [] { src := [192, 168, 64, 1], dst := [10, 0, 0, 2], proto := 6 }
        { sport := 1234, dport := 8000, seq := 456, ack := 0, flags := 2 } [] =
        some
          (upsertTcb []
            (tcbKeyOf { src := [192, 168, 64, 1], dst := [10, 0, 0, 2], proto := 6 }
              { sport := 1234, dport := 8000, seq := 456, ack := 0, flags := 2 })
            {
              src_ip := [192, 168, 64, 1], dst_ip := [10, 0, 0, 2],
              src_port := 8000, dst_port := 1234, snd_una := 0, snd_nxt := 2,
              snd_wnd := 8192, snd_up := 0, snd_wl1 := 0, snd_wl2 := 0,
              iss := 1, rcv_nxt := 456 + 1, rcv_wnd := 8192, rcv_up := 0,
              irs := 456,
              state := TCPState.SYN_RECEIVED, proxyConnected := true },
           [Effect.hostConnect "127.0.0.1" 8000, Effect.emit (ih ++ th)])) :=
  ⟨rfl, by decide,
   listen_syn_handling [] { src := [192, 168, 64, 1], dst := [10, 0, 0, 2], proto := 6 }
     { sport := 1234, dport := 8000, seq := 456, ack := 0, flags := 2 } []
     rfl (by decide) rfl (by decide) rfl (by decide) (by decide) (by decide) (by decide)⟩

/-- C2 counterexample: for a fresh SYN with the boundary sequence number
2 pow 32 - 1 the claim as stated is false: building the SYN+ACK needs the
ack field seq + 1 = 2 pow 32, which int.to_bytes cannot encode, so the
handler dies with OverflowError (doHandle returns none): no SYN+ACK is
emitted, snd_nxt is not incremented and the TCB never reaches
SYN_RECEIVED. -/
theorem listen_syn_handling_counterexample :
    TCPInfo.build
      { sport := 8000, dport := 1234, seq := 1, ack := 4294967296,
        flags := TCPFlags.ACK ||| TCPFlags.SYN }
      [10, 0, 0, 2] [192, 168, 64, 1] [] = none ∧
    doHandle [] { src := [192, 168, 64, 1], dst := [10, 0, 0, 2], proto := 6 }
      { sport := 1234, dport := 8000, seq := 4294967295, ack := 0, flags := 2 }
      [] = none := by
  constructor
  · decide
  · rfl

/-- C10 (amended): in the ESTABLISHED state, an incoming segment with ACK
set, FIN clear and an empty payload still produces a visible action:
rcv_nxt is set to the segment sequence number (seq plus the zero payload
length) and exactly one bare ACK segment is emitted — no data is forwarded
to the host writer and no other effect occurs; snd_nxt and the state are
unchanged.  This holds whenever the snd_nxt of the TCB is below 2 pow 32;
for an ESTABLISHED TCB whose snd_nxt has overflowed past 2 pow 32 (which
the missing modulo of C4 makes reachable) the bare-ACK build fails
(OverflowError in int.to_bytes on the seq field) after the in-place
rcv_nxt assignment, and nothing is emitted — see the counterexample, where
doHandle returns none (the modelled uncaught exception, which does not
track the already-performed in-place mutation).  The remaining side
conditions (4-byte addresses, 16-bit ports, parsed 32-bit seq) hold for
every TCB created from parsed segments. -/
theorem established_bare_ack (m : TcbMap) (iph : IPInfo) (tcph : TCPInfo)
    (tcb : TCB)
    (hfind : findTcb m (tcbKeyOf iph tcph) = some tcb)
    (hst : tcb.state = TCPState.ESTABLISHED)
    (hack : tcph.flags &&& TCPFlags.ACK ≠ 0)
    (hfin : tcph.flags &&& TCPFlags.FIN = 0)
    (hs4 : tcb.src_ip.length = 4) (hsb : byteListOk tcb.src_ip = true)
    (hd4 : tcb.dst_ip.length = 4) (hdb : byteListOk tcb.dst_ip = true)
    (hsp : tcb.src_port < 65536) (hdp : tcb.dst_port < 65536)
    (hsn : tcb.snd_nxt < 4294967296) (hseq : tcph.seq < 4294967296) :
    ∃ ih th,
      IPInfo.build { src := tcb.dst_ip, dst := tcb.src_ip, proto := 6 } 20 = some ih ∧
      TCPInfo.build
        { sport := tcb.src_port, dport := tcb.dst_port, seq := tcb.snd_nxt,
          ack := tcph.seq, flags := TCPFlags.ACK }
        tcb.dst_ip tcb.src_ip [] = some th ∧
      doHandle m iph tcph [] = some
        (upsertTcb m (tcbKeyOf iph tcph) { tcb with rcv_nxt := tcph.seq },
         [Effect.emit (ih ++ th)]) := by
  obtain ⟨ih, th, hip, htc, hbr, hgd⟩ := buildResponse_some
    { tcb with rcv_nxt := tcph.seq } TCPFlags.ACK
    hs4 hsb hd4 hdb hsp hdp hsn hseq (by decide)
  have hget : getTcb m iph tcph = some (m, tcb) := by
    simp [getTcb, hfind]
  have hh : handleEstablishedState tcph tcb [] =
      some ({ tcb with rcv_nxt := tcph.seq }, [Effect.emit (ih ++ th)]) := by
    rw [handleEstablishedState]
    rw [if_neg (show ¬ tcph.flags &&& TCPFlags.FIN ≠ 0 from fun hh2 => hh2 hfin)]
    rw [if_pos hack]
    simp only [List.length_nil, Nat.add_zero]
    rw [hbr]
    simp only [sendResponse, hgd]
    rw [if_neg (by decide :
      ¬ (TCPFlags.ACK &&& TCPFlags.SYN ≠ 0 ∨ TCPFlags.ACK &&& TCPFlags.FIN ≠ 0))]
    simp
  refine ⟨ih, th, hip, htc, ?_⟩
  exact doHandle_established_stay m iph tcph [] m tcb
    { tcb with rcv_nxt := tcph.seq } [Effect.emit (ih ++ th)] hget hst hh hst

/-- C10 witness: the theorem applied to an established connection
192.168.64.1:1234 to 10.0.0.2:8000 receiving a bare ACK with seq 457. -/
theorem established_bare_ack_witness :
    (findTcb
      [((([192, 168, 64, 1], 8000, [10, 0, 0, 2], 1234) :
          List Nat × Nat × List Nat × Nat),
        ({
          src_ip := [192, 168, 64, 1], dst_ip := [10, 0, 0, 2],
          src_port := 8000, dst_port := 1234, snd_una := 0, snd_nxt := 2,
          snd_wnd := 8192, snd_up := 0, snd_wl1 := 0, snd_wl2 := 0,
          iss := 1, rcv_nxt := 457, rcv_wnd := 8192, rcv_up := 0, irs := 456,
          state := TCPState.ESTABLISHED, proxyConnected := true } : TCB))]
      (tcbKeyOf { src := [192, 168, 64, 1], dst := [10, 0, 0, 2], proto := 6 }
        { sport := 1234, dport := 8000, seq := 457, ack := 2, flags := 16 }) =
      some {
        src_ip := [192, 168, 64, 1], dst_ip := [10, 0, 0, 2],
        src_port := 8000, dst_port := 1234, snd_una := 0, snd_nxt := 2,
        snd_wnd := 8192, snd_up := 0, snd_wl1 := 0, snd_wl2 := 0,
        iss := 1, rcv_nxt := 457, rcv_wnd := 8192, rcv_up := 0, irs := 456,
        state := TCPState.ESTABLISHED, proxyConnected := true }) ∧
    ((16 : Nat) &&& TCPFlags.ACK ≠ 0) ∧
    ((16 : Nat) &&& TCPFlags.FIN = 0) ∧
    (∃ ih th,
      IPInfo.build { src := [10, 0, 0, 2], dst := [192, 168, 64, 1], proto := 6 } 20 =
        some ih ∧
      TCPInfo.build
        { sport := 8000, dport := 1234, seq := 2, ack := 457, flags := TCPFlags.ACK }
        [10, 0, 0, 2] [192, 168, 64, 1] [] = some th ∧
      doHandle
        [((([192, 168, 64, 1], 8000, [10, 0, 0, 2], 1234) :
            List Nat × Nat × List Nat × Nat),
          ({
            src_ip := [192, 168, 64, 1], dst_ip := [10, 0, 0, 2],
            src_port := 8000, dst_port := 1234, snd_una := 0, snd_nxt := 2,
            snd_wnd := 8192, snd_up := 0, snd_wl1 := 0, snd_wl2 := 0,
            iss := 1, rcv_nxt := 457, rcv_wnd := 8192, rcv_up := 0, irs := 456,
            state := TCPState.ESTABLISHED, proxyConnected := true } : TCB))]
        { src := [192, 168, 64, 1], dst := [10, 0, 0, 2], proto := 6 }
        { sport := 1234, dport := 8000, seq := 457, ack := 2, flags := 16 } [] =
        some
          (upsertTcb
            [((([192, 168, 64, 1], 8000, [10, 0, 0, 2], 1234) :
                List Nat × Nat × List Nat × Nat),
              ({
                src_ip := [192, 168, 64, 1], dst_ip := [10, 0, 0, 2],
                src_port := 8000, dst_port := 1234, snd_una := 0, snd_nxt := 2,
                snd_wnd := 8192, snd_up := 0, snd_wl1 := 0, snd_wl2 := 0,
                iss := 1, rcv_nxt := 457, rcv_wnd := 8192, rcv_up := 0, irs := 456,
                state := TCPState.ESTABLISHED, proxyConnected := true } : TCB))]
            (tcbKeyOf { src := [192, 168, 64, 1], dst := [10, 0, 0, 2], proto := 6 }
              { sport := 1234, dport := 8000, seq := 457, ack := 2, flags := 16 })
            {
              src_ip := [192, 168, 64, 1], dst_ip := [10, 0, 0, 2],
              src_port := 8000, dst_port := 1234, snd_una := 0, snd_nxt := 2,
              snd_wnd := 8192, snd_up := 0, snd_wl1 := 0, snd_wl2 := 0,
              iss := 1, rcv_nxt := 457, rcv_wnd := 8192, rcv_up := 0, irs := 456,
              state := TCPState.ESTABLISHED, proxyConnected := true },
           [Effect.emit (ih ++ th)])) :=
  ⟨by decide, by decide, by decide,
   established_bare_ack
     [((([192, 168, 64, 1], 8000, [10, 0, 0, 2], 1234) :
         List Nat × Nat × List Nat × Nat),
       ({
         src_ip := [192, 168, 64, 1], dst_ip := [10, 0, 0, 2],
         src_port := 8000, dst_port := 1234, snd_una := 0, snd_nxt := 2,
         snd_wnd := 8192, snd_up := 0, snd_wl1 := 0, snd_wl2 := 0,
         iss := 1, rcv_nxt := 457, rcv_wnd := 8192, rcv_up := 0, irs := 456,
         state := TCPState.ESTABLISHED, proxyConnected := true } : TCB))]
     { src := [192, 168, 64, 1], dst := [10, 0, 0, 2], proto := 6 }
     { sport := 1234, dport := 8000, seq := 457, ack := 2, flags := 16 }
     {
       src_ip := [192, 168, 64, 1], dst_ip := [10, 0, 0, 2],
       src_port := 8000, dst_port := 1234, snd_una := 0, snd_nxt := 2,
       snd_wnd := 8192, snd_up := 0, snd_wl1 := 0, snd_wl2 := 0,
       iss := 1, rcv_nxt := 457, rcv_wnd := 8192, rcv_up := 0, irs := 456,
       state := TCPState.ESTABLISHED, proxyConnected := true }
     (by decide) rfl (by decide) (by decide)
     rfl (by decide) rfl (by decide) (by decide) (by decide) (by decide) (by decide)⟩

/-- C10 counterexample: an ESTABLISHED TCB whose snd_nxt has overflowed to
2 pow 32 (reachable via the missing sequence-number modulo of C4, with the
proxy-reader task already dead) receives a bare ACK; the claim as stated is
false: the bare-ACK build fails because int.to_bytes cannot encode the seq
field, the handler dies with OverflowError (doHandle returns none) and no
ACK segment is emitted. -/
theorem established_bare_ack_counterexample :
    TCPInfo.build
      { sport := 8000, dport := 1234, seq := 4294967296, ack := 457,
        flags := TCPFlags.ACK }
      [10, 0, 0, 2] [192, 168, 64, 1] [] = none ∧
    doHandle
      [((([192, 168, 64, 1], 8000, [10, 0, 0, 2], 1234) :
          List Nat × Nat × List Nat × Nat),
        ({
          src_ip := [192, 168, 64, 1], dst_ip := [10, 0, 0, 2],
          src_port := 8000, dst_port := 1234, snd_una := 0,
          snd_nxt := 4294967296, snd_wnd := 8192, snd_up := 0,
          snd_wl1 := 0, snd_wl2 := 0, iss := 1, rcv_nxt := 457,
          rcv_wnd := 8192, rcv_up := 0, irs := 456,
          state := TCPState.ESTABLISHED, proxyConnected := true } : TCB))]
      { src := [192, 168, 64, 1], dst := [10, 0, 0, 2], proto := 6 }
      { sport := 1234, dport := 8000, seq := 457, ack := 0, flags := 16 }
      [] = none := by
  constructor
  · decide
  · rfl
